import Mathlib

/-!
Verification development for the GeminiAPIforImageGen repository.

The repository is a Node/Express facade over an upstream image-generation
API.  The logic under verification comprises:

* `ValidationService` (rate limiting, concurrent-request accounting and
  user-input validation),
* the `/api/generate` request handler (reservation, validation, generation
  and the `finally`-block release),
* `GeminiService.generateImage` (the strategy x model retry loop),
* `GeminiService.generateWithModel` (upstream response classification),
* `PromptGuard.detectProblematicContent`, `smartPromptTransformation` and
  `ruleBasedTransformation` in their two revisions (`utils/promptGuard.js`
  appears in the repository in a strict and a permissive revision).

The JavaScript regular expressions used by the detector and the rule-based
transformer are embedded by a small executable engine below that mirrors
the JS semantics for the constructs those patterns actually use: literal
characters (case-insensitive where the `i` flag is present), character
classes, alternation with left preference, greedy star/plus/option over a
character class, the dot, and the word-boundary assertion.  Strings are
modelled as `String` (lists of characters); the JS UTF-16 length is
abstracted as the character count, which coincides on the inputs of
interest.
-/

set_option maxRecDepth 16000

namespace GeminiSpec

/-! ## A small executable engine for the JS regex subset used by the code -/

/-- JS word character for the boundary assertion: `[A-Za-z0-9_]`. -/
def jsWordChar (c : Char) : Bool :=
  c.isAlpha || c.isDigit || c == '_'

/-- JS whitespace class for the patterns in use. -/
def jsSpaceChar (c : Char) : Bool :=
  c == ' ' || c == '\t' || c == '\n' || c == '\r' || c == '\x0b' || c == '\x0c'

/-- JS `.` matches everything except line terminators. -/
def jsDotChar (c : Char) : Bool :=
  !(c == '\n' || c == '\r' || c == '\u2028' || c == '\u2029')

/-- ASCII digit class `\d`. -/
def jsDigitChar (c : Char) : Bool := c.isDigit

/-- Regular-expression subset used by the repository's patterns. -/
inductive RE where
  | eps
  | cls (p : Char → Bool)
  | seq (a b : RE)
  | alt (a b : RE)
  | starCls (p : Char → Bool)
  | wb

/-- Word-boundary test between the previous character and the next one. -/
def boundaryAt (prev : Option Char) (next : Option Char) : Bool :=
  (match prev with | some c => jsWordChar c | none => false)
    != (match next with | some c => jsWordChar c | none => false)

/-- Character preceding the position reached after consuming `n` characters
of `s`, given the character preceding `s` itself. -/
def prevAfter (prev : Option Char) (s : List Char) (n : Nat) : Option Char :=
  if n = 0 then prev else s.get? (n - 1)

/-- Greedy lengths for `p*`: the run length first, down to zero. -/
def starLens (p : Char → Bool) (s : List Char) : List Nat :=
  (List.range ((s.takeWhile p).length + 1)).reverse

/-- All lengths of matches of `re` at the start of `s`, in JS backtracking
preference order (head of the list is the length JS would pick). -/
def matchLens : RE → Option Char → List Char → List Nat
  | .eps, _, _ => [0]
  | .cls p, _, s =>
      match s with
      | [] => []
      | c :: _ => if p c then [1] else []
  | .seq a b, prev, s =>
      (matchLens a prev s).flatMap
        (fun n => (matchLens b (prevAfter prev s n) (s.drop n)).map (fun m => n + m))
  | .alt a b, prev, s => matchLens a prev s ++ matchLens b prev s
  | .starCls p, _, s => starLens p s
  | .wb, prev, s => if boundaryAt prev s.head? then [0] else []

/-- Character preceding position `i` of `s`. -/
def posPrev (s : List Char) (i : Nat) : Option Char :=
  if i = 0 then none else s.get? (i - 1)

/-- JS `re.test(s)`: a match exists at some position. -/
def reTest (re : RE) (s : String) : Bool :=
  (List.range (s.data.length + 1)).any
    (fun i => !(matchLens re (posPrev s.data i) (s.data.drop i)).isEmpty)

/-- Worker for global replacement; `fuel` bounds the scan.  A position with
no (non-empty) match is copied; a match is replaced and the scan resumes
after it, as JS `String.prototype.replace` with the `g` flag does. -/
def replaceAllAux (re : RE) (rep : List Char) : Nat → Option Char → List Char → List Char
  | 0, _, s => s
  | Nat.succ fuel, prev, s =>
      match s with
      | [] => []
      | c :: rest =>
          match (matchLens re prev s).head? with
          | some (Nat.succ n) =>
              rep ++ replaceAllAux re rep fuel (s.get? n) (s.drop (n + 1))
          | _ => c :: replaceAllAux re rep fuel (some c) rest

/-- JS `s.replace(re, rep)` with the `g` flag. -/
def jsReplaceAll (re : RE) (rep : String) (s : String) : String :=
  ⟨replaceAllAux re rep.data s.data.length none s.data⟩

/-- Worker for first-occurrence replacement. -/
def replaceFirstAux (re : RE) (rep : List Char) : Nat → Option Char → List Char → List Char
  | 0, _, s => s
  | Nat.succ fuel, prev, s =>
      match s with
      | [] => []
      | c :: rest =>
          match (matchLens re prev s).head? with
          | some (Nat.succ n) => rep ++ s.drop (n + 1)
          | _ => c :: replaceFirstAux re rep fuel (some c) rest

/-- JS `s.replace(re, rep)` without the `g` flag. -/
def jsReplaceFirst (re : RE) (rep : String) (s : String) : String :=
  ⟨replaceFirstAux re rep.data s.data.length none s.data⟩

/-- Case-insensitive literal character (patterns carry the `i` flag). -/
def reChar (c : Char) : RE := .cls (fun x => x.toLower == c)

/-- Case-sensitive literal character (for the one flagless pattern). -/
def reCharCS (c : Char) : RE := .cls (fun x => x == c)

/-- Case-insensitive literal word. -/
def reLit (w : String) : RE :=
  w.data.foldr (fun c r => RE.seq (reChar c) r) .eps

/-- Case-sensitive literal word. -/
def reLitCS (w : String) : RE :=
  w.data.foldr (fun c r => RE.seq (reCharCS c) r) .eps

/-- Alternation of literal words, left preference as in JS. -/
def reAlts : List String → RE
  | [] => .cls (fun _ => false)
  | [w] => reLit w
  | w :: rest => .alt (reLit w) (reAlts rest)

/-- Pattern `\b(?:w1|w2|...)\b` with the `i` flag. -/
def wordAlt (ws : List String) : RE :=
  .seq .wb (.seq (reAlts ws) .wb)

/-- Greedy `p?` over a character class. -/
def reOptCls (p : Char → Bool) : RE := .alt (.cls p) .eps

/-- Greedy `p+` over a character class. -/
def rePlusCls (p : Char → Bool) : RE := .seq (.cls p) (.starCls p)

/-- Class `[\s-]` used by the age patterns. -/
def spaceDash (c : Char) : Bool := jsSpaceChar c || c == '-'

/-! ## Generic string helpers mirroring the JS methods in use -/

/-- Substring search: JS `hay.includes(needle)` on character lists. -/
def hasSub : List Char → List Char → Bool
  | n, [] => n.isEmpty
  | n, h :: t => n.isPrefixOf (h :: t) || hasSub n t

/-- JS `s.toLowerCase()` (ASCII-faithful). -/
def strToLower (s : String) : String := ⟨s.data.map Char.toLower⟩

/-- JS `s.trim()` for the whitespace characters in use. -/
def jsTrim (s : String) : String :=
  ⟨((s.data.dropWhile jsSpaceChar).reverse.dropWhile jsSpaceChar).reverse⟩

/-! ## Content-issue detection

Embeds `GeminiService.detectProblematicContent`
(`src/services/gemini.js`, lines 548-588), whose pattern tables are
literally identical to `config.gemini.contentDetection` in
`utils/config.js` as consumed by the `PromptGuard` revision in
`src/unnamed/part_005`. -/

/-- Detected issue record: `{ type, pattern: pattern.toString(), severity }`. -/
structure ContentIssue where
  type : String
  pattern : String
  severity : String
deriving DecidableEq

/-- Age pattern 1. -/
def ageRe1 : RE :=
  wordAlt ["child", "children", "kid", "kids", "boy", "girl", "baby", "babies",
           "infant", "toddler", "teen", "teenager"]

/-- Age pattern 2: `\b(?:\d+[\s-]?(?:year|yr)[\s-]?old|years?\s+old)\b`. -/
def ageRe2 : RE :=
  .seq .wb (.seq
    (.alt
      (.seq (rePlusCls jsDigitChar)
        (.seq (reOptCls spaceDash)
          (.seq (reAlts ["year", "yr"]) (.seq (reOptCls spaceDash) (reLit "old")))))
      (.seq (reLit "year")
        (.seq (reOptCls (fun c => c.toLower == 's'))
          (.seq (rePlusCls jsSpaceChar) (reLit "old")))))
    .wb)

/-- Age pattern 3: `\b(?:minor|juvenile|youth|young|little|small)\s+(?:person|people|human|individual)\b`. -/
def ageRe3 : RE :=
  .seq .wb (.seq (reAlts ["minor", "juvenile", "youth", "young", "little", "small"])
    (.seq (rePlusCls jsSpaceChar)
      (.seq (reAlts ["person", "people", "human", "individual"]) .wb)))

/-- Age pattern 4. -/
def ageRe4 : RE :=
  wordAlt ["school", "student", "pupil", "kindergarten", "preschool"]

/-- Risk pattern 1. -/
def riskRe1 : RE :=
  wordAlt ["model", "modeling", "pose", "posing", "photoshoot"]

/-- Risk pattern 2: `\b(?:cute|adorable|sweet|innocent)\s+(?:child|kid|boy|girl)\b`. -/
def riskRe2 : RE :=
  .seq .wb (.seq (reAlts ["cute", "adorable", "sweet", "innocent"])
    (.seq (rePlusCls jsSpaceChar)
      (.seq (reAlts ["child", "kid", "boy", "girl"]) .wb)))

/-- Risk pattern 3: `\b(?:drinking|eating|consuming)\b.*\b(?:milk|formula|bottle)\b`. -/
def riskRe3 : RE :=
  .seq .wb (.seq (reAlts ["drinking", "eating", "consuming"])
    (.seq .wb (.seq (.starCls jsDotChar)
      (.seq .wb (.seq (reAlts ["milk", "formula", "bottle"]) .wb)))))

/-- Age-related pattern family with the `pattern.toString()` sources. -/
def agePatterns : List (RE × String) :=
  [(ageRe1, "/\\b(?:child|children|kid|kids|boy|girl|baby|babies|infant|toddler|teen|teenager)\\b/i"),
   (ageRe2, "/\\b(?:\\d+[\\s-]?(?:year|yr)[\\s-]?old|years?\\s+old)\\b/i"),
   (ageRe3, "/\\b(?:minor|juvenile|youth|young|little|small)\\s+(?:person|people|human|individual)\\b/i"),
   (ageRe4, "/\\b(?:school|student|pupil|kindergarten|preschool)\\b/i")]

/-- Risky-context pattern family with the `pattern.toString()` sources. -/
def riskPatterns : List (RE × String) :=
  [(riskRe1, "/\\b(?:model|modeling|pose|posing|photoshoot)\\b/i"),
   (riskRe2, "/\\b(?:cute|adorable|sweet|innocent)\\s+(?:child|kid|boy|girl)\\b/i"),
   (riskRe3, "/\\b(?:drinking|eating|consuming)\\b.*\\b(?:milk|formula|bottle)\\b/i")]

/-- `detectProblematicContent(prompt)`: each matching age pattern pushes a
high-severity age issue, then each matching risk pattern pushes a
medium-severity risky-context issue.  (The lowercased copy of the prompt
computed by the source is unused there and omitted.) -/
def detectProblematicContent (prompt : String) : List ContentIssue :=
  let issues : List ContentIssue := []
  let issues := agePatterns.foldl
    (fun acc pr =>
      if reTest pr.1 prompt then
        acc ++ [{ type := "age_related", pattern := pr.2, severity := "high" }]
      else acc)
    issues
  let issues := riskPatterns.foldl
    (fun acc pr =>
      if reTest pr.1 prompt then
        acc ++ [{ type := "risky_context", pattern := pr.2, severity := "medium" }]
      else acc)
    issues
  issues

/-- Declarative description of the detector used to certify that it is a
deterministic total function of its input: the definition-ordered filter of
the two pattern families. -/
def detectSpec (prompt : String) : List ContentIssue :=
  (agePatterns.filter (fun pr => reTest pr.1 prompt)).map
      (fun pr => { type := "age_related", pattern := pr.2, severity := "high" })
    ++ (riskPatterns.filter (fun pr => reTest pr.1 prompt)).map
      (fun pr => { type := "risky_context", pattern := pr.2, severity := "medium" })

/-! ## Prompt transformation (strict revision, `src/unnamed/part_005`) -/

/-- Result shape of the transformation routines. -/
structure PromptVariant where
  original : String
  transformed : String
  method : String
  issues : List ContentIssue
deriving DecidableEq

/-- Replacement table of `ruleBasedTransformation`
(`config.gemini.contentDetection.replacements`, identical to the table in
`src/services/gemini.js` lines 668-685). -/
def replacementTable : List (RE × String) :=
  [(.seq .wb (.seq
      (.seq (rePlusCls jsDigitChar)
        (.seq (reOptCls spaceDash)
          (.seq (reAlts ["year", "yr"]) (.seq (reOptCls spaceDash) (reLit "old")))))
      .wb), ""),
   (.seq .wb (.seq
      (.seq (reLit "year")
        (.seq (reOptCls (fun c => c.toLower == 's'))
          (.seq (rePlusCls jsSpaceChar) (reLit "old"))))
      .wb), ""),
   (wordAlt ["child", "children", "kid", "kids", "boy", "girl", "baby", "babies",
             "infant", "toddler"], "product"),
   (wordAlt ["person", "people", "human", "individual", "model"], "item"),
   (wordAlt ["drinking", "eating", "consuming"], "featuring"),
   (wordAlt ["holding", "grasping", "clutching"], "displaying"),
   (wordAlt ["photoshoot"], "product photography"),
   (wordAlt ["modeling"], "artistic arrangement"),
   (wordAlt ["pose"], "composition")]

/-- Framing text prepended by `.replace(/^/, ...)` on every pass. -/
def stillLifeFrame : String := "artistic still life composition featuring "

/-- Pattern `/milk\s*fro/` (no flags: case-sensitive, first occurrence). -/
def milkFroRe : RE :=
  .seq (reLitCS "milk") (.seq (.starCls jsSpaceChar) (reLitCS "fro"))

/-- `PromptGuard.ruleBasedTransformation(originalPrompt, issues)`
(`src/unnamed/part_005`, lines 109-130): apply every replacement pattern,
collapse whitespace, trim, prepend the framing text, then patch the first
`milk...fro` occurrence. -/
def ruleBasedTransformation (originalPrompt : String) (issues : List ContentIssue) :
    PromptVariant :=
  let transformed := originalPrompt
  let transformed := replacementTable.foldl (fun s pr => jsReplaceAll pr.1 pr.2 s) transformed
  let transformed := jsReplaceAll (rePlusCls jsSpaceChar) " " transformed
  let transformed := jsTrim transformed
  let transformed := stillLifeFrame ++ transformed
  let transformed := jsReplaceFirst milkFroRe "milk glass with frothy texture" transformed
  { original := originalPrompt, transformed := transformed,
    method := "rule_based_transformation", issues := issues }

/-- JS `candidate.replace(/^["']|["']$/g, '')`: strip one leading and one
trailing quote character. -/
def stripEdgeQuotes (s : String) : String :=
  let l := s.data
  let l := match l with
    | c :: rest => if c == '"' || c == '\x27' then rest else l
    | [] => l
  let l := match l.reverse with
    | c :: rest => if c == '"' || c == '\x27' then rest.reverse else l
    | [] => l
  ⟨l⟩

/-- `PromptGuard.smartPromptTransformation(originalPrompt)`
(`src/unnamed/part_005`, lines 51-101).  The auxiliary text-model call is
external input, passed as `aiText`: `Except.error` is the thrown-rejection
path, `.ok none` the missing-candidate chain, `.ok (some raw)` a returned
candidate text. -/
def smartPromptTransformation (aiText : Except String (Option String))
    (originalPrompt : String) : PromptVariant :=
  let issues := detectProblematicContent originalPrompt
  if issues.isEmpty then
    { original := originalPrompt, transformed := originalPrompt,
      method := "no_issues_detected", issues := [] }
  else
    match aiText with
    | .ok (some raw) =>
        let candidate := jsTrim raw
        if candidate ≠ "" then
          { original := originalPrompt, transformed := stripEdgeQuotes candidate,
            method := "ai_transformation", issues := issues }
        else ruleBasedTransformation originalPrompt issues
    | .ok none => ruleBasedTransformation originalPrompt issues
    | .error _ => ruleBasedTransformation originalPrompt (detectProblematicContent originalPrompt)

/-! ## Prompt transformation (permissive revision, `src/unnamed/part_004`)

The repository also contains a second revision of `utils/promptGuard.js`
in which the detector only flags explicitly high-risk combinations and the
no-issue path returns a quality-enhanced rewrite instead of the original
prompt. -/

namespace PromptGuard4

/-- High-risk pattern `\b(?:naked|nude|undressed|sexual|inappropriate)\b.*\b(?:child|children|kid|kids|minor)\b`. -/
def highRiskRe1 : RE :=
  .seq .wb (.seq (reAlts ["naked", "nude", "undressed", "sexual", "inappropriate"])
    (.seq .wb (.seq (.starCls jsDotChar)
      (.seq .wb (.seq (reAlts ["child", "children", "kid", "kids", "minor"]) .wb)))))

/-- High-risk pattern with the two word groups in the opposite order. -/
def highRiskRe2 : RE :=
  .seq .wb (.seq (reAlts ["child", "children", "kid", "kids", "minor"])
    (.seq .wb (.seq (.starCls jsDotChar)
      (.seq .wb (.seq (reAlts ["naked", "nude", "undressed", "sexual", "inappropriate"]) .wb)))))

/-- High-risk patterns with their `pattern.toString()` sources. -/
def highRiskPatterns : List (RE × String) :=
  [(highRiskRe1, "/\\b(?:naked|nude|undressed|sexual|inappropriate)\\b.*\\b(?:child|children|kid|kids|minor)\\b/i"),
   (highRiskRe2, "/\\b(?:child|children|kid|kids|minor)\\b.*\\b(?:naked|nude|undressed|sexual|inappropriate)\\b/i")]

/-- `PromptGuard.detectProblematicContent` (`src/unnamed/part_004`, lines
17-38): only the two high-risk patterns are checked. -/
def detectProblematicContent (prompt : String) : List ContentIssue :=
  highRiskPatterns.foldl
    (fun acc pr =>
      if reTest pr.1 prompt then
        acc ++ [{ type := "high_risk_content", pattern := pr.2, severity := "high" }]
      else acc)
    []

/-- Quality enhancer phrases of `enhancePromptQuality`. -/
def qualityEnhancers : List String :=
  ["high quality photograph", "natural lighting", "authentic cultural representation",
   "dignified portrayal", "respectful documentation", "human warmth and connection"]

/-- `PromptGuard.enhancePromptQuality` (`src/unnamed/part_004`, lines
113-130).  The source shuffles the enhancer list with a `Math.random`
comparator; the resulting permutation is external input `shuffle`. -/
def enhancePromptQuality (shuffle : List String → List String) (prompt : String) : String :=
  let randomEnhancers := String.intercalate ", " ((shuffle qualityEnhancers).take 3)
  randomEnhancers ++ ", " ++ prompt ++ ", photorealistic, professional photography, meaningful moment"

/-- `PromptGuard.smartPromptTransformation` (`src/unnamed/part_004`, lines
45-106).  `shuffle` is the random permutation used by quality enhancement
and `aiText` the auxiliary text-model outcome as in the strict revision. -/
def smartPromptTransformation (shuffle : List String → List String)
    (aiText : Except String (Option String)) (originalPrompt : String) : PromptVariant :=
  let issues := detectProblematicContent originalPrompt
  if issues.isEmpty then
    { original := originalPrompt, transformed := enhancePromptQuality shuffle originalPrompt,
      method := "quality_enhancement", issues := [] }
  else
    match aiText with
    | .ok (some raw) =>
        if issues.any (fun i => i.severity == "high") then
          let candidate := jsTrim raw
          if candidate ≠ "" then
            { original := originalPrompt, transformed := stripEdgeQuotes candidate,
              method := "ai_safety_transformation", issues := issues }
          else
            { original := originalPrompt,
              transformed := enhancePromptQuality shuffle originalPrompt,
              method := "quality_enhancement", issues := issues }
        else
          { original := originalPrompt,
            transformed := enhancePromptQuality shuffle originalPrompt,
            method := "quality_enhancement", issues := issues }
    | .ok none =>
        { original := originalPrompt,
          transformed := enhancePromptQuality shuffle originalPrompt,
          method := "quality_enhancement", issues := issues }
    | .error _ =>
        { original := originalPrompt,
          transformed := enhancePromptQuality shuffle originalPrompt,
          method := "quality_enhancement_fallback",
          issues := detectProblematicContent originalPrompt }

end PromptGuard4

/-! ## ValidationService (`src/unnamed/part_003`, lines 614-722)

The service keys two maps by `userId`; every claim concerns a single
identity, so the state below is the projection of both maps to the
identity at hand (`rateLimit` is the `rateLimits` entry, absent when the
map has no entry; `concurrent` is `concurrentRequests.get(userId) || 0`,
for which an absent entry and a stored `0` are indistinguishable). -/

/-- Per-identity entry of the `rateLimits` map. -/
structure UserRateLimit where
  requests : Nat
  windowStart : Int
deriving DecidableEq

/-- Per-identity projection of the two `ValidationService` maps. -/
structure VUserState where
  rateLimit : Option UserRateLimit
  concurrent : Int
deriving DecidableEq

/-- `RATE_LIMIT_WINDOW`: one hour in milliseconds. -/
def RATE_LIMIT_WINDOW : Int := 3600000

/-- Result of `validateRateLimit`: accepted, or one of the two throws. -/
inductive RLOutcome where
  | accepted
  | rateLimited (minutesUntilReset : Int)
  | tooManyConcurrent
deriving DecidableEq

/-- `Math.ceil(a / b)` for a positive divisor `b`. -/
def ceilDiv (a b : Int) : Int := Int.ediv (a + b - 1) b

/-- `ValidationService.validateRateLimit(userId)` (`src/unnamed/part_003`,
lines 625-658), parameterised by the configured maxima and the current
time.  The lazily reset window record is mutated in place by the source,
so when the map had an entry the reset persists even on a throwing path;
the fresh default record is only stored by the explicit `set` on the
accepting path. -/
def validateRateLimit (maxPerHour : Nat) (maxConcurrent : Int) (now : Int)
    (st : VUserState) : RLOutcome × VUserState :=
  let stored := st.rateLimit
  let r0 := stored.getD { requests := 0, windowStart := now }
  let r1 := if now - r0.windowStart > RATE_LIMIT_WINDOW then
      { requests := 0, windowStart := now } else r0
  let st1 := if stored.isSome then { st with rateLimit := some r1 } else st
  if r1.requests ≥ maxPerHour then
    (.rateLimited (ceilDiv (RATE_LIMIT_WINDOW - (now - r1.windowStart)) 60000), st1)
  else
    let concurrentCount := st.concurrent
    if concurrentCount ≥ maxConcurrent then
      (.tooManyConcurrent, st1)
    else
      (.accepted,
       { rateLimit := some { requests := r1.requests + 1, windowStart := r1.windowStart },
         concurrent := concurrentCount + 1 })

/-- `ValidationService.decrementConcurrentRequests(userId)`
(`src/unnamed/part_003`, lines 660-665): no-op when the counter is not
positive. -/
def decrementConcurrentRequests (st : VUserState) : VUserState :=
  if st.concurrent > 0 then { st with concurrent := st.concurrent - 1 } else st

/-- JSON value shape of `req.body.prompt` as far as the validator
distinguishes it: null/undefined, a string, or any other value with its
JS truthiness. -/
inductive JSVal where
  | jnull
  | jstr (s : String)
  | jother (truthy : Bool)
deriving DecidableEq

/-- Blocked terms of `validateUserInput`. -/
def blockedTerms : List String :=
  ["hack", "exploit", "vulnerability", "nude", "naked", "pornography",
   "explicit", "violence", "gore", "hate", "harassment", "terrorism"]

/-- `ValidationService.validateUserInput(text)` (`src/unnamed/part_003`,
lines 667-691).  The leading `!text || typeof text !== 'string'` check
rejects every non-string and the empty string. -/
def validateUserInput (text : JSVal) : Except String Unit :=
  match text with
  | .jstr s =>
      if s = "" then .error "Invalid input: Must provide a text description"
      else if s.length < 3 then
        .error "Input too short: Please provide a more detailed description (at least 3 characters)"
      else if s.length > 1000 then
        .error "Input too long: Must be under 1000 characters"
      else if blockedTerms.any (fun term => hasSub term.data (strToLower s).data) then
        .error "Invalid input: Contains prohibited terms"
      else .ok ()
  | _ => .error "Invalid input: Must provide a text description"

/-- Optional fields of the `options` request parameter. -/
structure ImageOptionsInput where
  format : Option String
  size : Option String
deriving DecidableEq

/-- JS truthiness of an optional string field. -/
def optTruthy : Option String → Option String
  | some "" => none
  | o => o

/-- `ValidationService.validateImageOptions(options)`
(`src/unnamed/part_003`, lines 693-719): normalises format and size with
defaults `jpeg` and `medium`. -/
def validateImageOptions (options : ImageOptionsInput) : Except String (String × String) :=
  match optTruthy options.format with
  | some f0 =>
      let f := strToLower f0
      if f = "jpeg" || f = "jpg" || f = "png" then
        match optTruthy options.size with
        | some sz =>
            if sz = "small" || sz = "medium" || sz = "large" then .ok (f, sz)
            else .error "Invalid size: Must be one of small, medium, large"
        | none => .ok (f, "medium")
      else .error "Invalid format: Must be jpeg/jpg or png"
  | none =>
      match optTruthy options.size with
      | some sz =>
          if sz = "small" || sz = "medium" || sz = "large" then .ok ("jpeg", sz)
          else .error "Invalid size: Must be one of small, medium, large"
      | none => .ok ("jpeg", "medium")

/-! ## The `/api/generate` handler (`src/app.js`, lines 92-199) -/

/-- JS falsiness of the prompt value for the `if (!prompt)` guard. -/
def jsFalsy : JSVal → Bool
  | .jnull => true
  | .jstr s => s = ""
  | .jother t => !t

/-- Observable outcome of one handler run. -/
inductive HandlerOutcome where
  | ok
  | errMissingPrompt
  | err (message : String)
deriving DecidableEq

/-- Result of one handler run: whether the rate-limit reservation was
accepted, whether generation was invoked, how many times
`decrementConcurrentRequests` ran, the response outcome and the final
per-identity state. -/
structure HandleResult where
  accepted : Bool
  genCalled : Bool
  releaseCalls : Nat
  outcome : HandlerOutcome
  state : VUserState
deriving DecidableEq

/-- The `finally` block of the handler: release only when
`userId && userId !== 'anonymous'`. -/
def runFinally (userId : String) (st : VUserState) : Nat × VUserState :=
  if userId ≠ "" ∧ userId ≠ "anonymous" then (1, decrementConcurrentRequests st)
  else (0, st)

/-- The `POST /api/generate` handler (`src/app.js`, lines 92-199):
`userId = req.ip || 'anonymous'`; the `try` body runs the missing-prompt
guard, `validateRateLimit`, `validateUserInput`, `validateImageOptions`
and then image generation (whose outcome is external input `genResult`);
the `finally` block always runs, including after the early `return` and
after any throw. -/
def handleGenerate (maxPerHour : Nat) (maxConcurrent : Int) (now : Int)
    (reqIp : Option String) (prompt : JSVal) (options : ImageOptionsInput)
    (genResult : Except String Unit) (st : VUserState) : HandleResult :=
  let userId := match reqIp with
    | some ip => if ip = "" then "anonymous" else ip
    | none => "anonymous"
  if jsFalsy prompt then
    let fin := runFinally userId st
    { accepted := false, genCalled := false, releaseCalls := fin.1,
      outcome := .errMissingPrompt, state := fin.2 }
  else
    match validateRateLimit maxPerHour maxConcurrent now st with
    | (.accepted, st1) =>
        (match validateUserInput prompt with
         | .error m =>
             let fin := runFinally userId st1
             { accepted := true, genCalled := false, releaseCalls := fin.1,
               outcome := .err m, state := fin.2 }
         | .ok _ =>
             match validateImageOptions options with
             | .error m =>
                 let fin := runFinally userId st1
                 { accepted := true, genCalled := false, releaseCalls := fin.1,
                   outcome := .err m, state := fin.2 }
             | .ok _ =>
                 match genResult with
                 | .error m =>
                     let fin := runFinally userId st1
                     { accepted := true, genCalled := true, releaseCalls := fin.1,
                       outcome := .err m, state := fin.2 }
                 | .ok _ =>
                     let fin := runFinally userId st1
                     { accepted := true, genCalled := true, releaseCalls := fin.1,
                       outcome := .ok, state := fin.2 })
    | (.rateLimited m, st1) =>
        let fin := runFinally userId st1
        { accepted := false, genCalled := false, releaseCalls := fin.1,
          outcome := .err ("Rate limit exceeded. Please try again in "
            ++ toString m ++ " minutes."), state := fin.2 }
    | (.tooManyConcurrent, st1) =>
        let fin := runFinally userId st1
        { accepted := false, genCalled := false, releaseCalls := fin.1,
          outcome := .err "Too many concurrent requests. Please wait for your previous generations to complete.",
          state := fin.2 }

/-! ## GeminiService orchestration (`src/services/gemini.js`, first revision)

`generateImage` (lines 175-263) walks an ordered strategy list and, within
each strategy, the ordered model list, calling `generateWithModel` per
attempt.  The upstream call is external input `att` mapping (final prompt,
model name) to an outcome; strategy 2 is the prompt-guard transformation,
whose outcome is external input `smartRes` (`Except.error` is the
strategy-level throw).  The `lastError` variable is recorded by the source
but never read for the emitted message, so it is not tracked. -/

/-- Configured substrings recognising a content-policy rejection
(`config.gemini.apiErrorStrings.contentPolicy`). -/
def contentPolicyStrings : List String :=
  ["content policy", "safety", "blocked", "58061214"]

/-- Configured substrings recognising a quota error
(`config.gemini.apiErrorStrings.quota`). -/
def quotaStrings : List String := ["quota", "rate limit", "limit exceeded"]

/-- `GeminiService.isContentPolicyError(errorMessage)` (lines 355-359). -/
def isContentPolicyError (errorMessage : String) : Bool :=
  contentPolicyStrings.any
    (fun e => hasSub (strToLower e).data (strToLower errorMessage).data)

/-- `GeminiService.isQuotaError(errorMessage)` (lines 361-365). -/
def isQuotaError (errorMessage : String) : Bool :=
  quotaStrings.any (fun e => hasSub (strToLower e).data (strToLower errorMessage).data)

/-- Payload returned by a successful `generateWithModel` call. -/
structure ImgSuccess where
  base64 : String
  mimeType : String
deriving DecidableEq

/-- Outcome of one `generateWithModel` attempt: a resolved value or the
message of a thrown error. -/
inductive GenOutcome where
  | ok (r : ImgSuccess)
  | err (msg : String)
deriving DecidableEq

/-- Whether an attempt outcome is a thrown error recognised as a
content-policy rejection. -/
def isPolicyOutcome : GenOutcome → Bool
  | .err m => isContentPolicyError m
  | .ok _ => false

/-- Whether an attempt outcome passes the `result && result.base64` check. -/
def isSuccessOutcome : GenOutcome → Bool
  | .ok r => r.base64 != ""
  | .err _ => false

/-- Ordered model list (`config.gemini.imageModels`). -/
def imageModels : List String :=
  ["imagegeneration@006", "imagegeneration@005", "imagegeneration@002"]

/-- Inner model loop of `generateImage` (lines 211-237): returns the list
of attempts made under one strategy together with the successful payload
and model when one occurred.  A truthy `result.base64` returns; a falsy
one falls through to the next model; a thrown error recognised by
`isContentPolicyError` breaks out of the model loop. -/
def runModels (att : String → String → GenOutcome) (finalPrompt : String) :
    List String → List (String × GenOutcome) × Option (ImgSuccess × String)
  | [] => ([], none)
  | m :: ms =>
      match att finalPrompt m with
      | .ok r =>
          if r.base64 != "" then ([(m, .ok r)], some (r, m))
          else ((m, .ok r) :: (runModels att finalPrompt ms).1,
                (runModels att finalPrompt ms).2)
      | .err e =>
          if isContentPolicyError e then ([(m, .err e)], none)
          else ((m, .err e) :: (runModels att finalPrompt ms).1,
                (runModels att finalPrompt ms).2)

/-- Success payload assembled by `generateImage` on a model success. -/
structure GenReturn where
  base64 : String
  mimeType : String
  promptUsed : String
  originalPrompt : String
  promptWasTransformed : Bool
  transformationMethod : String
  modelUsed : String
  detectedIssues : List ContentIssue
deriving DecidableEq

/-- The success object assembled at lines 218-226. -/
def assembleReturn (prompt : String) (v : PromptVariant) (r : ImgSuccess)
    (model : String) : GenReturn :=
  { base64 := r.base64, mimeType := r.mimeType, promptUsed := v.transformed,
    originalPrompt := prompt,
    promptWasTransformed := decide (v.original ≠ v.transformed),
    transformationMethod := v.method, modelUsed := model,
    detectedIssues := v.issues }

/-- One strategy iteration: a model-loop success returns immediately with
the tagged attempts of this strategy; otherwise the attempts are followed
by whatever the remaining strategies produce. -/
def strategyStep (prompt : String) (i : Nat) (v : PromptVariant)
    (mr : List (String × GenOutcome) × Option (ImgSuccess × String))
    (restRes : List (Nat × String × GenOutcome) × Option GenReturn) :
    List (Nat × String × GenOutcome) × Option GenReturn :=
  match mr.2 with
  | some rm => (mr.1.map (fun a => (i, a)), some (assembleReturn prompt v rm.1 rm.2))
  | none => (mr.1.map (fun a => (i, a)) ++ restRes.1, restRes.2)

/-- The strategy loop of `generateImage` (lines 202-242).  A strategy whose
variant production throws is recorded only in `lastError` and skipped. -/
def runStrategies (att : String → String → GenOutcome) (prompt : String) :
    List (Nat × Except String PromptVariant) →
      List (Nat × String × GenOutcome) × Option GenReturn
  | [] => ([], none)
  | (_, .error _) :: rest => runStrategies att prompt rest
  | (i, .ok v) :: rest =>
      strategyStep prompt i v (runModels att v.transformed imageModels)
        (runStrategies att prompt rest)

/-- Word alternation replaced by `element` in strategy 3. -/
def peopleElementRe : RE :=
  wordAlt ["child", "children", "kid", "kids", "boy", "girl", "baby", "babies",
           "infant", "toddler", "person", "people", "human"]

/-- Strategy 3 (lines 192-197): the ultra-abstract template over the
people-erased, 50-character-truncated prompt. -/
def ultraAbstractVariant (prompt : String) : PromptVariant :=
  { original := prompt,
    transformed := "abstract artistic composition inspired by the concept of: "
      ++ (⟨(jsReplaceAll peopleElementRe "element" prompt).data.take 50⟩ : String)
      ++ ", digital art style",
    method := "ultra_abstract", issues := [] }

/-- Message thrown on exhaustion when the original prompt has an
age-related issue (line 249). -/
def exhaustionMinors : String :=
  "Unable to generate images with human subjects, especially minors. Try focusing on objects, landscapes, abstract art, or product photography instead."

/-- Message thrown on exhaustion otherwise (line 251). -/
def exhaustionGeneric : String :=
  "Content policy violation. Please try rephrasing with more abstract, artistic language."

/-- The outer catch block (lines 254-262): a quota-like message is replaced
by the rate-limit message, anything else is rethrown unchanged. -/
def quotaRethrow (msg : String) : String :=
  if isQuotaError msg then "Rate limit exceeded. Please try again later." else msg

/-- `GeminiService.generateImage(prompt, userId, options)` (lines 175-263),
parameterised by the injected prompt-guard detector `detect` (the
repository carries two `PromptGuard` revisions), the upstream attempt
outcomes `att` and the strategy-2 transformation outcome `smartRes`.
Returns the overall result together with the full ordered attempt trace
tagged by strategy index.  The leading checks are `validatePrompt`
(lines 156-173), whose issue scan only logs. -/
def generateImage (detect : String → List ContentIssue)
    (att : String → String → GenOutcome) (smartRes : Except String PromptVariant)
    (prompt : String) :
    Except String GenReturn × List (Nat × String × GenOutcome) :=
  if prompt = "" then
    (.error (quotaRethrow "Prompt is required and must be a string"), [])
  else if prompt.length > 1000 then
    (.error (quotaRethrow "Prompt must be less than 1000 characters"), [])
  else
    let strategies : List (Nat × Except String PromptVariant) :=
      [(0, Except.ok { original := prompt, transformed := prompt,
                       method := "original", issues := [] }),
       (1, smartRes),
       (2, Except.ok (ultraAbstractVariant prompt))]
    match (runStrategies att prompt strategies).2 with
    | some r => (.ok r, (runStrategies att prompt strategies).1)
    | none =>
        if (detect prompt).any (fun i => i.type == "age_related") then
          (.error (quotaRethrow exhaustionMinors), (runStrategies att prompt strategies).1)
        else
          (.error (quotaRethrow exhaustionGeneric), (runStrategies att prompt strategies).1)

/-! ## Upstream response classification
(`GeminiService.generateWithModel`, lines 265-342) -/

/-- One element of the upstream `predictions` array. -/
structure Prediction where
  bytesBase64Encoded : Option String
  mimeType : Option String
deriving DecidableEq

/-- Parsed upstream response body. -/
structure PredictResult where
  predictions : Option (List Prediction)
deriving DecidableEq

/-- JS `o || d` on an optional string field (empty string is falsy). -/
def jsOrDefault (o : Option String) (d : String) : String :=
  match o with
  | some s => if s = "" then d else s
  | none => d

/-- Classification of the upstream HTTP response by `generateWithModel`
(lines 302-336): `ok` is `response.ok`, `parsed` the JSON parse result
(`none` for a parse failure).  Success requires a truthy non-empty
`bytesBase64Encoded` in the first prediction; an OK response with an empty
`predictions` array throws the empty-response content-policy message. -/
def classifyModelResponse (modelName : String) (ok : Bool) (status : Nat)
    (responseText : String) (parsed : Option PredictResult) :
    Except String ImgSuccess :=
  if !ok then
    if status == 400 && isContentPolicyError responseText then
      .error "Content policy violation"
    else
      .error (modelName ++ " API error: " ++ toString status ++ " - " ++ responseText)
  else
    match parsed with
    | none => .error "Invalid response format from image generation API"
    | some result =>
        let fromFirst : Option ImgSuccess :=
          match result.predictions with
          | some (p :: _) =>
              match p.bytesBase64Encoded with
              | some b =>
                  if b ≠ "" then
                    some { base64 := b, mimeType := jsOrDefault p.mimeType "image/png" }
                  else none
              | none => none
          | _ => none
        match fromFirst with
        | some img => .ok img
        | none =>
            match result.predictions with
            | some [] => .error "Content policy violation - empty response"
            | _ => .error "No image data in response"

/-- Input shapes the validator boundary claim enumerates: null, non-string,
or a string shorter than 3 or longer than 1000 characters. -/
def isInvalidShape : JSVal → Bool
  | .jnull => true
  | .jother _ => true
  | .jstr s => decide (s.length < 3) || decide (s.length > 1000)

/-- One full request of the rate-limited lifecycle: the reservation by
`validateRateLimit` followed, when it was accepted, by the release the
handler `finally` block performs for the identity. -/
def requestCycle (maxPerHour : Nat) (maxConcurrent : Int) (now : Int)
    (st : VUserState) : RLOutcome × VUserState :=
  match validateRateLimit maxPerHour maxConcurrent now st with
  | (.accepted, st1) => (.accepted, decrementConcurrentRequests st1)
  | r => r

/-- Sequential requests at the given times. -/
def runCycles (maxPerHour : Nat) (maxConcurrent : Int) :
    List Int → VUserState → List RLOutcome × VUserState
  | [], st => ([], st)
  | t :: ts, st =>
      ((requestCycle maxPerHour maxConcurrent t st).1
          :: (runCycles maxPerHour maxConcurrent ts
              (requestCycle maxPerHour maxConcurrent t st).2).1,
       (runCycles maxPerHour maxConcurrent ts
          (requestCycle maxPerHour maxConcurrent t st).2).2)

/-- Interleavable operations on the per-identity counters. -/
inductive RLOp where
  | check (now : Int)
  | release
deriving DecidableEq

/-- Effect of one operation on the per-identity state. -/
def applyOp (maxPerHour : Nat) (maxConcurrent : Int) (st : VUserState) : RLOp → VUserState
  | .check now => (validateRateLimit maxPerHour maxConcurrent now st).2
  | .release => decrementConcurrentRequests st

/-- Run of a sequence of reservation checks and releases. -/
def runOps (maxPerHour : Nat) (maxConcurrent : Int) (ops : List RLOp)
    (st : VUserState) : VUserState :=
  ops.foldl (applyOp maxPerHour maxConcurrent) st

/-- State of an identity that has made no request yet. -/
def initialVUserState : VUserState := { rateLimit := none, concurrent := 0 }

/-! ## Helper lemmas -/

/-- Pushing matches onto an accumulator is the filter-map of the family. -/
theorem foldl_push_filter_map {α : Type} (l : List α) (init : List ContentIssue)
    (q : α → Bool) (f : α → ContentIssue) :
    l.foldl (fun acc pr => if q pr then acc ++ [f pr] else acc) init
      = init ++ (l.filter q).map f := by
  induction l generalizing init with
  | nil => simp
  | cons x xs ih =>
      simp only [List.foldl_cons, List.filter_cons]
      by_cases h : q x
      · simp [h, ih]
      · simp [h, ih]

/-! ## Claim theorems: detector and transformations -/

/-- C6: the content-issue detector is total and deterministic: it is a pure
function of the prompt string, equal for every input to the
definition-ordered filter-map of its two pattern families (so every string
input yields a possibly empty issue list, and equal inputs yield equal
lists). -/
theorem c6_detector_total_deterministic (prompt : String) :
    detectProblematicContent prompt = detectSpec prompt := by
  simp only [detectProblematicContent, detectSpec]
  rw [foldl_push_filter_map agePatterns []
        (fun pr => reTest pr.1 prompt)
        (fun pr => { type := "age_related", pattern := pr.2, severity := "high" }),
      List.nil_append,
      foldl_push_filter_map riskPatterns _
        (fun pr => reTest pr.1 prompt)
        (fun pr => { type := "risky_context", pattern := pr.2, severity := "medium" })]

/-- C3 (amended): in the strict prompt-guard revision, for every prompt on
which the detector returns an empty issue list, `smartPromptTransformation`
returns the variant whose transformed text is the original prompt itself
and whose method is the no-issues marker. -/
theorem c3_no_issue_identity (aiText : Except String (Option String)) (p : String)
    (h : detectProblematicContent p = []) :
    smartPromptTransformation aiText p =
      { original := p, transformed := p, method := "no_issues_detected", issues := [] } := by
  unfold smartPromptTransformation
  rw [h]
  rfl

/-- C3 (witness): the scenario prompt has no issues and maps to itself. -/
theorem c3_no_issue_identity_witness :
    detectProblematicContent "a red bicycle in a park" = [] ∧
    smartPromptTransformation (.ok none) "a red bicycle in a park" =
      { original := "a red bicycle in a park", transformed := "a red bicycle in a park",
        method := "no_issues_detected", issues := [] } :=
  ⟨by decide, c3_no_issue_identity (.ok none) "a red bicycle in a park" (by decide)⟩

/-- C3 (counterexample): in the permissive prompt-guard revision
(`src/unnamed/part_004`), the detector returns no issue for the scenario
prompt, yet the transformation neither returns the original text nor marks
the variant as the no-issues original: it returns a quality-enhanced
rewrite with method `quality_enhancement`. -/
theorem c3_counterexample_part004 :
    PromptGuard4.detectProblematicContent "a red bicycle in a park" = [] ∧
    ¬ ((PromptGuard4.smartPromptTransformation id (.ok none) "a red bicycle in a park").transformed
          = "a red bicycle in a park"
        ∧ (PromptGuard4.smartPromptTransformation id (.ok none) "a red bicycle in a park").method
          = "no_issues_detected") := by
  decide

/-- C4 (counterexample): rule-based transformation is not idempotent: a
second application to the first pass output changes the text again. -/
theorem c4_counterexample_not_idempotent :
    (ruleBasedTransformation (ruleBasedTransformation "a bike" []).transformed []).transformed
      ≠ (ruleBasedTransformation "a bike" []).transformed := by
  decide

/-- C4 (amended): a second pass is not a fixed point: it prepends the
framing text again, so the second pass output is the framing text followed
by the entire first pass output (shown on the scenario prompt, which is
free of every replacement-table term). -/
theorem c4_second_pass_prepends_frame :
    (ruleBasedTransformation
        (ruleBasedTransformation "a red bicycle in a park" []).transformed []).transformed
      = stillLifeFrame ++ (ruleBasedTransformation "a red bicycle in a park" []).transformed := by
  decide

/-! ## Claim theorems: validator boundary and response classification -/

/-- C5: every null, non-string, too-short or too-long input makes
`validateUserInput` fail, and the request handler never invokes image
generation for it (whatever the rate-limit state); conversely a string of
length 3 to 1000 containing no blocked term passes validation. -/
theorem c5_validator_boundary :
    (∀ v : JSVal, isInvalidShape v = true →
        (∃ m, validateUserInput v = Except.error m) ∧
        ∀ (mp : Nat) (mc : Int) (now : Int) (ip : Option String)
          (opts : ImageOptionsInput) (gen : Except String Unit) (st : VUserState),
          (handleGenerate mp mc now ip v opts gen st).genCalled = false) ∧
    (∀ s : String, 3 ≤ s.length → s.length ≤ 1000 →
        (∀ term ∈ blockedTerms, hasSub term.data (strToLower s).data = false) →
        validateUserInput (JSVal.jstr s) = Except.ok ()) := by
  constructor
  · intro v hv
    have herr : ∃ m, validateUserInput v = Except.error m := by
      cases v with
      | jnull => exact ⟨_, rfl⟩
      | jother t => exact ⟨_, rfl⟩
      | jstr s =>
          simp only [isInvalidShape, Bool.or_eq_true, decide_eq_true_eq] at hv
          by_cases h0 : s = ""
          · exact ⟨"Invalid input: Must provide a text description",
              by simp [validateUserInput, h0]⟩
          · rcases hv with h | h
            · exact ⟨"Input too short: Please provide a more detailed description (at least 3 characters)",
                by simp [validateUserInput, h0, h]⟩
            · have h3 : ¬ s.length < 3 := by omega
              exact ⟨"Input too long: Must be under 1000 characters",
                by simp [validateUserInput, h0, h3, h]⟩
    refine ⟨herr, ?_⟩
    obtain ⟨m, hm⟩ := herr
    intro mp mc now ip opts gen st
    unfold handleGenerate
    by_cases hf : jsFalsy v = true
    · simp [hf]
    · rcases hrl : validateRateLimit mp mc now st with ⟨r, st1⟩
      cases r with
      | accepted => simp [hf, hrl, hm]
      | rateLimited mm => simp [hf, hrl]
      | tooManyConcurrent => simp [hf, hrl]
  · intro s h3 h1000 hb
    have hne : s ≠ "" := by
      intro h
      subst h
      simp [String.length] at h3
    have hlt : ¬ s.length < 3 := by omega
    have hgt : ¬ s.length > 1000 := by omega
    have hany : (blockedTerms.any fun term => hasSub term.data (strToLower s).data) = false := by
      rw [List.any_eq_false]
      intro t ht
      simp [hb t ht]
    simp [validateUserInput, hne, hlt, hgt, hany]

/-- C5 (witness): the claim applied to the null input and to the scenario
prompt. -/
theorem c5_validator_boundary_witness :
    (∃ m, validateUserInput JSVal.jnull = Except.error m) ∧
    validateUserInput (JSVal.jstr "a red bicycle in a park") = Except.ok () :=
  ⟨(c5_validator_boundary.1 JSVal.jnull (by decide)).1,
   c5_validator_boundary.2 "a red bicycle in a park" (by decide) (by decide) (by decide)⟩

/-- C8: for an OK upstream response, classification succeeds exactly when
the first prediction carries a non-empty base64 payload, and an OK
response whose predictions array is present but empty is thrown with the
empty-response message, which the policy-rejection recogniser accepts. -/
theorem c8_empty_predictions_policy (modelName : String) (status : Nat)
    (text : String) (r : PredictResult) :
    (r.predictions = some [] →
        classifyModelResponse modelName true status text (some r)
          = Except.error "Content policy violation - empty response"
        ∧ isContentPolicyError "Content policy violation - empty response" = true) ∧
    (∀ img, classifyModelResponse modelName true status text (some r) = Except.ok img ↔
        ∃ p ps b, r.predictions = some (p :: ps) ∧ p.bytesBase64Encoded = some b ∧ b ≠ "" ∧
          img = { base64 := b, mimeType := jsOrDefault p.mimeType "image/png" }) := by
  constructor
  · intro h
    exact ⟨by simp [classifyModelResponse, h], by decide⟩
  · intro img
    constructor
    · intro h
      cases hp : r.predictions with
      | none => simp [classifyModelResponse, hp] at h
      | some l =>
          cases l with
          | nil => simp [classifyModelResponse, hp] at h
          | cons p ps =>
              cases hb : p.bytesBase64Encoded with
              | none => simp [classifyModelResponse, hp, hb] at h
              | some b =>
                  by_cases hbe : b = ""
                  · simp [classifyModelResponse, hp, hb, hbe] at h
                  · refine ⟨p, ps, b, rfl, hb, hbe, ?_⟩
                    simp [classifyModelResponse, hp, hb, hbe] at h
                    exact h.symm
    · rintro ⟨p, ps, b, hp, hb, hbe, him⟩
      simp [classifyModelResponse, hp, hb, hbe, him]

/-- C8 (witness): the claim applied to the concrete empty-predictions
response. -/
theorem c8_empty_predictions_policy_witness :
    classifyModelResponse "imagegeneration@006" true 200 "" (some { predictions := some [] })
        = Except.error "Content policy violation - empty response"
      ∧ isContentPolicyError "Content policy violation - empty response" = true :=
  (c8_empty_predictions_policy "imagegeneration@006" 200 "" { predictions := some [] }).1 rfl

/-! ## Claim theorems: concurrency release and rate limiting -/

/-- C1 (counterexample): a request whose reservation is rejected (here for
exceeding the concurrency limit) still decrements the concurrent counter:
the handler `finally` block releases regardless of whether the reservation
was accepted, so the counter drops from 3 to 2. -/
theorem c1_rejected_request_decrements :
    (handleGenerate 21 3 0 (some "203.0.113.7") (.jstr "a red bicycle in a park")
        { format := none, size := none } (.ok ())
        { rateLimit := some { requests := 0, windowStart := 0 }, concurrent := 3 }).accepted
        = false
    ∧ (handleGenerate 21 3 0 (some "203.0.113.7") (.jstr "a red bicycle in a park")
        { format := none, size := none } (.ok ())
        { rateLimit := some { requests := 0, windowStart := 0 }, concurrent := 3 }).state.concurrent
        = 2 := by
  decide

/-- An accepted reservation increments the concurrent counter by one. -/
theorem validateRateLimit_accepted_concurrent (maxPerHour : Nat) (maxConcurrent : Int)
    (now : Int) (st st1 : VUserState)
    (h : validateRateLimit maxPerHour maxConcurrent now st = (.accepted, st1)) :
    st1.concurrent = st.concurrent + 1 := by
  simp only [validateRateLimit] at h
  repeat' split at h
  all_goals
    simp only [Prod.mk.injEq, reduceCtorEq, false_and, eq_self_iff_true, true_and] at h
  all_goals rw [← h]

/-- C1 (amended): for every request whose identity is not the literal
string `anonymous` and whose reservation is accepted, the release runs
exactly once whatever the later outcome, and the concurrent counter
returns to its prior (non-negative) value. -/
theorem c1_accepted_release_exactly_once (maxPerHour : Nat) (maxConcurrent : Int)
    (now : Int) (ip : String) (prompt : JSVal) (opts : ImageOptionsInput)
    (gen : Except String Unit) (st : VUserState)
    (hip1 : ip ≠ "") (hip2 : ip ≠ "anonymous") (h0 : 0 ≤ st.concurrent)
    (hacc : (handleGenerate maxPerHour maxConcurrent now (some ip) prompt opts gen st).accepted
        = true) :
    (handleGenerate maxPerHour maxConcurrent now (some ip) prompt opts gen st).releaseCalls = 1
    ∧ (handleGenerate maxPerHour maxConcurrent now (some ip) prompt opts gen st).state.concurrent
        = st.concurrent := by
  unfold handleGenerate at hacc ⊢
  by_cases hf : jsFalsy prompt = true
  · simp [hf] at hacc
  · rcases hrl : validateRateLimit maxPerHour maxConcurrent now st with ⟨r, st1⟩
    have hfin : runFinally ip st1 = (1, decrementConcurrentRequests st1) := by
      simp [runFinally, hip1, hip2]
    cases r with
    | accepted =>
        have hst1 : st1.concurrent = st.concurrent + 1 :=
          validateRateLimit_accepted_concurrent maxPerHour maxConcurrent now st st1 hrl
        have hdec : (decrementConcurrentRequests st1).concurrent = st.concurrent := by
          unfold decrementConcurrentRequests
          rw [if_pos (by omega)]
          simp [hst1]
        cases hvu : validateUserInput prompt with
        | error m => simp [hf, hrl, hip1, hip2, hvu, hfin, hdec]
        | ok u =>
            cases hvo : validateImageOptions opts with
            | error m => simp [hf, hrl, hip1, hip2, hvu, hvo, hfin, hdec]
            | ok o =>
                cases gen with
                | error m => simp [hf, hrl, hip1, hip2, hvu, hvo, hfin, hdec]
                | ok u2 => simp [hf, hrl, hip1, hip2, hvu, hvo, hfin, hdec]
    | rateLimited mm => simp [hf, hrl] at hacc
    | tooManyConcurrent => simp [hf, hrl] at hacc

/-- C1 (witness): the amended claim applied at a concrete accepted request
from a non-anonymous identity with one generation already in flight. -/
theorem c1_accepted_release_exactly_once_witness :
    (handleGenerate 21 3 0 (some "203.0.113.7") (.jstr "a red bicycle in a park")
        { format := none, size := none } (.ok ())
        { rateLimit := none, concurrent := 1 }).releaseCalls = 1
    ∧ (handleGenerate 21 3 0 (some "203.0.113.7") (.jstr "a red bicycle in a park")
        { format := none, size := none } (.ok ())
        { rateLimit := none, concurrent := 1 }).state.concurrent = 1 :=
  c1_accepted_release_exactly_once 21 3 0 "203.0.113.7" (.jstr "a red bicycle in a park")
    { format := none, size := none } (.ok ()) { rateLimit := none, concurrent := 1 }
    (by decide) (by decide) (by decide) (by decide)

/-- A request inside the window from a quiescent state below the request
cap is accepted and leaves the window anchored, the count incremented and
no generation in flight. -/
theorem requestCycle_step (k : Nat) (t0 t : Int)
    (hk : k < 21) (ht : t - t0 ≤ RATE_LIMIT_WINDOW) :
    requestCycle 21 3 t
        { rateLimit := some { requests := k, windowStart := t0 }, concurrent := 0 }
      = (.accepted,
         { rateLimit := some { requests := k + 1, windowStart := t0 }, concurrent := 0 }) := by
  have hexp : ¬ t - t0 > RATE_LIMIT_WINDOW := by omega
  have hmax : ¬ k ≥ 21 := by omega
  simp [requestCycle, validateRateLimit, decrementConcurrentRequests, hexp, hmax]

/-- Runs of in-window requests from a quiescent state are all accepted and
only advance the request count. -/
theorem runCycles_accepts (ts : List Int) (t0 : Int) (k : Nat)
    (hts : ∀ t ∈ ts, t - t0 ≤ RATE_LIMIT_WINDOW) (hk : k + ts.length ≤ 21) :
    runCycles 21 3 ts { rateLimit := some { requests := k, windowStart := t0 }, concurrent := 0 }
      = (ts.map (fun _ => RLOutcome.accepted),
         { rateLimit := some { requests := k + ts.length, windowStart := t0 },
           concurrent := 0 }) := by
  induction ts generalizing k with
  | nil => simp [runCycles]
  | cons t ts ih =>
      have hstep := requestCycle_step k t0 t (by simp at hk; omega)
        (hts t (by simp))
      have hrest := ih (k + 1) (fun x hx => hts x (by simp [hx])) (by simp at hk ⊢; omega)
      simp only [runCycles, hstep, hrest, List.map_cons, List.length_cons]
      have harith : k + 1 + ts.length = k + (ts.length + 1) := by omega
      rw [harith]

/-- C9: an identity making 22 requests within one window with the default
cap of 21 per hour has the first 21 reservations accepted, each advancing
the request count, and the 22nd rejected with a rate-limit error whose
minutes-until-reset, computed from the remaining window time, is strictly
positive. -/
theorem c9_sliding_window (rest : List Int) (t0 tlast : Int)
    (hlen : rest.length = 20)
    (hin : ∀ t ∈ rest, t - t0 ≤ RATE_LIMIT_WINDOW)
    (hlast : tlast - t0 < RATE_LIMIT_WINDOW) :
    (runCycles 21 3 (t0 :: rest) { rateLimit := none, concurrent := 0 }).1
        = List.replicate 21 RLOutcome.accepted
    ∧ (runCycles 21 3 (t0 :: rest) { rateLimit := none, concurrent := 0 }).2
        = { rateLimit := some { requests := 21, windowStart := t0 }, concurrent := 0 }
    ∧ (requestCycle 21 3 tlast
          (runCycles 21 3 (t0 :: rest) { rateLimit := none, concurrent := 0 }).2).1
        = RLOutcome.rateLimited (ceilDiv (RATE_LIMIT_WINDOW - (tlast - t0)) 60000)
    ∧ 0 < ceilDiv (RATE_LIMIT_WINDOW - (tlast - t0)) 60000 := by
  have hfirst : requestCycle 21 3 t0 { rateLimit := none, concurrent := 0 }
      = (.accepted,
         { rateLimit := some { requests := 1, windowStart := t0 }, concurrent := 0 }) := by
    simp [requestCycle, validateRateLimit, decrementConcurrentRequests, RATE_LIMIT_WINDOW]
  have hrest := runCycles_accepts rest t0 1 hin (by omega)
  have hrun : runCycles 21 3 (t0 :: rest) { rateLimit := none, concurrent := 0 }
      = ((t0 :: rest).map (fun _ => RLOutcome.accepted),
         { rateLimit := some { requests := 21, windowStart := t0 }, concurrent := 0 }) := by
    simp only [runCycles, hfirst, hrest, List.map_cons]
    have harith : 1 + rest.length = 21 := by omega
    rw [harith]
  have hceil : 0 < ceilDiv (RATE_LIMIT_WINDOW - (tlast - t0)) 60000 := by
    unfold ceilDiv
    show (0 : Int) < (RATE_LIMIT_WINDOW - (tlast - t0) + 60000 - 1) / 60000
    have h2 : (1 : Int) ≤ (RATE_LIMIT_WINDOW - (tlast - t0) + 60000 - 1) / 60000 := by
      rw [Int.le_ediv_iff_mul_le (by norm_num)]
      simp only [RATE_LIMIT_WINDOW] at hlast ⊢
      omega
    omega
  refine ⟨?_, ?_, ?_, hceil⟩
  · rw [hrun]
    simp [List.map_const, hlen]
  · rw [hrun]
  · rw [hrun]
    have hexp : ¬ tlast - t0 > RATE_LIMIT_WINDOW := by omega
    simp [requestCycle, validateRateLimit, hexp]

/-- C9 (witness): the claim applied to 22 requests at time zero. -/
theorem c9_sliding_window_witness :
    (runCycles 21 3 (0 :: List.replicate 20 0) { rateLimit := none, concurrent := 0 }).1
        = List.replicate 21 RLOutcome.accepted
    ∧ (runCycles 21 3 (0 :: List.replicate 20 0) { rateLimit := none, concurrent := 0 }).2
        = { rateLimit := some { requests := 21, windowStart := 0 }, concurrent := 0 }
    ∧ (requestCycle 21 3 0
          (runCycles 21 3 (0 :: List.replicate 20 0) { rateLimit := none, concurrent := 0 }).2).1
        = RLOutcome.rateLimited (ceilDiv (RATE_LIMIT_WINDOW - (0 - 0)) 60000)
    ∧ 0 < ceilDiv (RATE_LIMIT_WINDOW - (0 - 0)) 60000 :=
  c9_sliding_window (List.replicate 20 0) 0 0 (by decide)
    (by intro t ht; simp at ht; simp [ht, RATE_LIMIT_WINDOW]) (by decide)

/-- One operation preserves the concurrent-counter bounds. -/
theorem applyOp_bounds (maxPerHour : Nat) (maxConcurrent : Int)
    (hmc : 0 ≤ maxConcurrent) (st : VUserState)
    (h : 0 ≤ st.concurrent ∧ st.concurrent ≤ maxConcurrent) (op : RLOp) :
    0 ≤ (applyOp maxPerHour maxConcurrent st op).concurrent
    ∧ (applyOp maxPerHour maxConcurrent st op).concurrent ≤ maxConcurrent := by
  cases op with
  | release =>
      simp only [applyOp, decrementConcurrentRequests]
      split
      · constructor <;> simp <;> omega
      · exact h
  | check now =>
      simp only [applyOp, validateRateLimit]
      repeat' split
      all_goals simp only []
      all_goals try exact h
      all_goals
        constructor
        · omega
        · simp only [not_le] at *
          omega

/-- C10: from the initial state, no interleaving of `validateRateLimit`
and `decrementConcurrentRequests` calls drives the per-identity concurrent
counter below zero or above the configured maximum: the check increments
only strictly below the maximum and the release is a no-op at zero. -/
theorem c10_concurrent_counter_bounded (maxPerHour : Nat) (maxConcurrent : Int)
    (hmc : 0 ≤ maxConcurrent) (ops : List RLOp) :
    0 ≤ (runOps maxPerHour maxConcurrent ops initialVUserState).concurrent
    ∧ (runOps maxPerHour maxConcurrent ops initialVUserState).concurrent ≤ maxConcurrent := by
  suffices hgen : ∀ (st : VUserState),
      0 ≤ st.concurrent ∧ st.concurrent ≤ maxConcurrent →
      0 ≤ (runOps maxPerHour maxConcurrent ops st).concurrent
      ∧ (runOps maxPerHour maxConcurrent ops st).concurrent ≤ maxConcurrent by
    exact hgen initialVUserState (by simp [initialVUserState, hmc])
  induction ops with
  | nil => intro st h; exact h
  | cons op ops ih =>
      intro st h
      exact ih _ (applyOp_bounds maxPerHour maxConcurrent hmc st h op)

/-- C10 (witness): the invariant applied to a concrete interleaving. -/
theorem c10_concurrent_counter_bounded_witness :
    0 ≤ (runOps 21 3 [RLOp.check 0, RLOp.check 1, RLOp.release, RLOp.release,
          RLOp.release, RLOp.check 2] initialVUserState).concurrent
    ∧ (runOps 21 3 [RLOp.check 0, RLOp.check 1, RLOp.release, RLOp.release,
          RLOp.release, RLOp.check 2] initialVUserState).concurrent ≤ 3 :=
  c10_concurrent_counter_bounded 21 3 (by decide)
    [RLOp.check 0, RLOp.check 1, RLOp.release, RLOp.release, RLOp.release, RLOp.check 2]

/-! ## Claim theorems: orchestrator short-circuit and exhaustion message -/

/-- A policy-rejected attempt is the last attempt of its model loop, and
the loop produces no success. -/
theorem runModels_policy_terminal (att : String → String → GenOutcome) (p : String) :
    ∀ (models : List String) (j : Nat) (x : String × GenOutcome),
      (runModels att p models).1.get? j = some x → isPolicyOutcome x.2 = true →
      (runModels att p models).2 = none
      ∧ j + 1 = (runModels att p models).1.length := by
  intro models
  induction models with
  | nil =>
      intro j x hj hx
      simp [runModels] at hj
  | cons m ms ih =>
      intro j x hj hx
      cases hatt : att p m with
      | ok r =>
          by_cases hb : (r.base64 != "") = true
          · simp only [runModels, hatt, if_pos hb] at hj ⊢
            cases j with
            | zero =>
                simp only [List.get?_cons_zero, Option.some.injEq] at hj
                rw [← hj] at hx
                simp [isPolicyOutcome] at hx
            | succ jj => simp at hj
          · simp only [runModels, hatt, if_neg hb] at hj ⊢
            cases j with
            | zero =>
                simp only [List.get?_cons_zero, Option.some.injEq] at hj
                rw [← hj] at hx
                simp [isPolicyOutcome] at hx
            | succ jj =>
                rw [List.get?_cons_succ] at hj
                obtain ⟨h1, h2⟩ := ih jj x hj hx
                exact ⟨h1, by simp [← h2]⟩
      | err e =>
          by_cases hpe : isContentPolicyError e = true
          · simp only [runModels, hatt, if_pos hpe] at hj ⊢
            cases j with
            | zero => refine ⟨?_, ?_⟩ <;> simp
            | succ jj => simp at hj
          · simp only [runModels, hatt, if_neg hpe] at hj ⊢
            cases j with
            | zero =>
                simp only [List.get?_cons_zero, Option.some.injEq] at hj
                rw [← hj] at hx
                simp [isPolicyOutcome] at hx
                exact absurd hx hpe
            | succ jj =>
                rw [List.get?_cons_succ] at hj
                obtain ⟨h1, h2⟩ := ih jj x hj hx
                exact ⟨h1, by simp [← h2]⟩

/-- Every trace entry carries the tag of one of the strategies. -/
theorem runStrategies_tags_mem (att : String → String → GenOutcome) (prompt : String) :
    ∀ (L : List (Nat × Except String PromptVariant)) (j : Nat)
      (x : Nat × String × GenOutcome),
      (runStrategies att prompt L).1.get? j = some x → x.1 ∈ L.map (fun e => e.1) := by
  intro L
  induction L with
  | nil =>
      intro j x hj
      simp [runStrategies] at hj
  | cons e rest ih =>
      intro j x hj
      obtain ⟨i, v⟩ := e
      cases v with
      | error msg =>
          simp only [runStrategies] at hj
          have := ih j x hj
          simp only [List.map_cons, List.mem_cons]
          exact Or.inr this
      | ok vv =>
          simp only [runStrategies, strategyStep] at hj
          simp only [List.map_cons, List.mem_cons]
          cases hmr : (runModels att vv.transformed imageModels).2 with
          | some rm =>
              rw [hmr] at hj
              simp only [List.get?_map] at hj
              cases ht : (runModels att vv.transformed imageModels).1.get? j with
              | none => rw [ht] at hj; cases hj
              | some xa =>
                  rw [ht] at hj
                  simp only [Option.map_some', Option.some.injEq] at hj
                  rw [← hj]
                  exact Or.inl rfl
          | none =>
              rw [hmr] at hj
              by_cases hjlen :
                  j < ((runModels att vv.transformed imageModels).1.map
                      (fun a => (i, a))).length
              · rw [List.get?_append hjlen] at hj
                simp only [List.get?_map] at hj
                cases ht : (runModels att vv.transformed imageModels).1.get? j with
                | none => rw [ht] at hj; cases hj
                | some xa =>
                    rw [ht] at hj
                    simp only [Option.map_some', Option.some.injEq] at hj
                    rw [← hj]
                    exact Or.inl rfl
              · rw [List.get?_append_right (le_of_not_lt hjlen)] at hj
                exact Or.inr (ih _ x hj)

/-- After a policy-rejected attempt, every later attempt in the trace
belongs to a strictly later strategy. -/
theorem runStrategies_policy_advances (att : String → String → GenOutcome)
    (prompt : String) :
    ∀ (L : List (Nat × Except String PromptVariant)),
      (L.map (fun e => e.1)).Pairwise (· < ·) →
      ∀ (j k : Nat) (a b : Nat × String × GenOutcome),
        (runStrategies att prompt L).1.get? j = some a →
        (runStrategies att prompt L).1.get? k = some b →
        j < k → isPolicyOutcome a.2.2 = true → a.1 < b.1 := by
  intro L
  induction L with
  | nil =>
      intro _ j k a b hj hk hjk hp
      simp [runStrategies] at hj
  | cons e rest ih =>
      intro hpw j k a b hj hk hjk hp
      obtain ⟨i, v⟩ := e
      rw [List.map_cons, List.pairwise_cons] at hpw
      obtain ⟨hlt, hpw2⟩ := hpw
      cases v with
      | error msg =>
          simp only [runStrategies] at hj hk
          exact ih hpw2 j k a b hj hk hjk hp
      | ok vv =>
          simp only [runStrategies, strategyStep] at hj hk
          cases hmr : (runModels att vv.transformed imageModels).2 with
          | some rm =>
              rw [hmr] at hj
              simp only [List.get?_map] at hj
              cases ht : (runModels att vv.transformed imageModels).1.get? j with
              | none => rw [ht] at hj; cases hj
              | some xa =>
                  rw [ht] at hj
                  simp only [Option.map_some', Option.some.injEq] at hj
                  have hxa : isPolicyOutcome xa.2 = true := by
                    rw [← hj] at hp
                    exact hp
                  have hterm := runModels_policy_terminal att vv.transformed
                    imageModels j xa ht hxa
                  rw [hmr] at hterm
                  cases hterm.1
          | none =>
              rw [hmr] at hj hk
              by_cases hjlen :
                  j < ((runModels att vv.transformed imageModels).1.map
                      (fun a => (i, a))).length
              · rw [List.get?_append hjlen] at hj
                simp only [List.get?_map] at hj
                cases ht : (runModels att vv.transformed imageModels).1.get? j with
                | none => rw [ht] at hj; cases hj
                | some xa =>
                    rw [ht] at hj
                    simp only [Option.map_some', Option.some.injEq] at hj
                    have hxa : isPolicyOutcome xa.2 = true := by
                      rw [← hj] at hp
                      exact hp
                    have hterm := runModels_policy_terminal att vv.transformed
                      imageModels j xa ht hxa
                    have hklen :
                        ((runModels att vv.transformed imageModels).1.map
                            (fun a => (i, a))).length ≤ k := by
                      rw [List.length_map]
                      omega
                    rw [List.get?_append_right hklen] at hk
                    have hbmem := runStrategies_tags_mem att prompt rest _ b hk
                    have hib := hlt b.1 hbmem
                    rw [← hj]
                    exact hib
              · have hjge := le_of_not_lt hjlen
                rw [List.get?_append_right hjge] at hj
                have hklen :
                    ((runModels att vv.transformed imageModels).1.map
                        (fun a => (i, a))).length ≤ k := by omega
                rw [List.get?_append_right hklen] at hk
                exact ih hpw2 _ _ a b hj hk (by omega) hp

/-- C2: in `generateImage`, once an attempt fails with a recognised
content-policy signal, every later attempt in the trace belongs to a
strictly later strategy: no further model is tried under the same
strategy. -/
theorem c2_policy_short_circuit (detect : String → List ContentIssue)
    (att : String → String → GenOutcome) (smartRes : Except String PromptVariant)
    (prompt : String) (j k : Nat) (a b : Nat × String × GenOutcome)
    (hj : (generateImage detect att smartRes prompt).2.get? j = some a)
    (hk : (generateImage detect att smartRes prompt).2.get? k = some b)
    (hjk : j < k) (hp : isPolicyOutcome a.2.2 = true) : a.1 < b.1 := by
  by_cases h1 : prompt = ""
  · simp [generateImage, h1] at hj
  · by_cases h2 : prompt.length > 1000
    · simp [generateImage, h1, h2] at hj
    · have htr : (generateImage detect att smartRes prompt).2
          = (runStrategies att prompt
              [(0, Except.ok { original := prompt, transformed := prompt,
                               method := "original", issues := [] }),
               (1, smartRes),
               (2, Except.ok (ultraAbstractVariant prompt))]).1 := by
        simp only [generateImage]
        rw [if_neg h1, if_neg h2]
        split
        · rfl
        · split <;> rfl
      rw [htr] at hj hk
      refine runStrategies_policy_advances att prompt _ ?_ j k a b hj hk hjk hp
      simp [List.pairwise_cons]

/-- C2 (witness): a run in which every model attempt fails with a safety
signal: the first trace entry is the sole strategy-0 attempt and the next
entry belongs to strategy 1. -/
theorem c2_policy_short_circuit_witness :
    (generateImage detectProblematicContent (fun _ _ => GenOutcome.err "safety block")
        (.ok { original := "x", transformed := "y", method := "original", issues := [] })
        "x").2.get? 0
      = some (0, "imagegeneration@006", GenOutcome.err "safety block")
    ∧ (0 : Nat) < 1 :=
  ⟨by decide,
   c2_policy_short_circuit detectProblematicContent
     (fun _ _ => GenOutcome.err "safety block")
     (.ok { original := "x", transformed := "y", method := "original", issues := [] })
     "x" 0 1 (0, "imagegeneration@006", GenOutcome.err "safety block")
     (1, "imagegeneration@006", GenOutcome.err "safety block")
     (by decide) (by decide) (by decide) (by decide)⟩

/-- When no attempt ever yields a usable payload, the model loop produces
no success. -/
theorem runModels_none_of_allfail (att : String → String → GenOutcome) (p : String)
    (hfail : ∀ m, isSuccessOutcome (att p m) = false) :
    ∀ models, (runModels att p models).2 = none := by
  intro models
  induction models with
  | nil => rfl
  | cons m ms ih =>
      have hm := hfail m
      cases hatt : att p m with
      | ok r =>
          rw [hatt] at hm
          simp only [isSuccessOutcome] at hm
          simp [runModels, hatt, hm, ih]
      | err e =>
          by_cases hpe : isContentPolicyError e = true
          · simp [runModels, hatt, hpe]
          · simp [runModels, hatt, hpe, ih]

/-- When no attempt ever yields a usable payload, the whole strategy walk
produces no success. -/
theorem runStrategies_none_of_allfail (att : String → String → GenOutcome)
    (prompt : String) (hfail : ∀ p m, isSuccessOutcome (att p m) = false) :
    ∀ L, (runStrategies att prompt L).2 = none := by
  intro L
  induction L with
  | nil => rfl
  | cons e rest ih =>
      obtain ⟨i, v⟩ := e
      cases v with
      | error msg => simpa [runStrategies] using ih
      | ok vv =>
          simp [runStrategies, strategyStep,
            runModels_none_of_allfail att vv.transformed (hfail vv.transformed), ih]

/-- C7: when every strategy and model has been tried without producing an
image, `generateImage` throws the message that references avoiding human
subjects and minors exactly when the injected detector reports an
age-related issue for the original prompt, and the generic
abstract-language message otherwise. -/
theorem c7_exhaustion_message (detect : String → List ContentIssue)
    (att : String → String → GenOutcome) (smartRes : Except String PromptVariant)
    (prompt : String) (hne : prompt ≠ "") (hlen : ¬ prompt.length > 1000)
    (hfail : ∀ p m, isSuccessOutcome (att p m) = false) :
    ((generateImage detect att smartRes prompt).1 = Except.error exhaustionMinors
        ↔ (detect prompt).any (fun i => i.type == "age_related") = true)
    ∧ ((detect prompt).any (fun i => i.type == "age_related") = false →
        (generateImage detect att smartRes prompt).1 = Except.error exhaustionGeneric) := by
  have hnone := runStrategies_none_of_allfail att prompt hfail
    [(0, Except.ok { original := prompt, transformed := prompt,
                     method := "original", issues := [] }),
     (1, smartRes),
     (2, Except.ok (ultraAbstractVariant prompt))]
  have hq1 : quotaRethrow exhaustionMinors = exhaustionMinors := by decide
  have hq2 : quotaRethrow exhaustionGeneric = exhaustionGeneric := by decide
  have hdiff : exhaustionGeneric ≠ exhaustionMinors := by decide
  by_cases hage : (detect prompt).any (fun i => i.type == "age_related") = true
  · have hres : (generateImage detect att smartRes prompt).1
        = Except.error exhaustionMinors := by
      simp only [generateImage]
      rw [if_neg hne, if_neg hlen, hnone]
      simp [hage, hq1]
    refine ⟨⟨fun _ => hage, fun _ => hres⟩, fun hcf => ?_⟩
    rw [hcf] at hage
    cases hage
  · have hage2 : (detect prompt).any (fun i => i.type == "age_related") = false := by
      simpa using hage
    have hres : (generateImage detect att smartRes prompt).1
        = Except.error exhaustionGeneric := by
      simp only [generateImage]
      rw [if_neg hne, if_neg hlen, hnone]
      simp [hage2, hq2]
    refine ⟨⟨fun hcontra => ?_, fun hcontra => absurd hcontra hage⟩, fun _ => hres⟩
    rw [hres] at hcontra
    exact absurd (Except.error.injEq .. ▸ congrArg id hcontra) (by simp [hdiff])

/-- C7 (witness): the claim applied to the age-flagged scenario prompt with
an upstream that always refuses. -/
theorem c7_exhaustion_message_witness :
    ((generateImage detectProblematicContent (fun _ _ => GenOutcome.err "upstream refused")
        (.ok { original := "5 year old kid", transformed := "5 year old kid",
               method := "original", issues := [] }) "5 year old kid").1
      = Except.error exhaustionMinors
      ↔ (detectProblematicContent "5 year old kid").any (fun i => i.type == "age_related")
          = true)
    ∧ ((detectProblematicContent "5 year old kid").any (fun i => i.type == "age_related")
          = false →
        (generateImage detectProblematicContent (fun _ _ => GenOutcome.err "upstream refused")
            (.ok { original := "5 year old kid", transformed := "5 year old kid",
                   method := "original", issues := [] }) "5 year old kid").1
          = Except.error exhaustionGeneric) :=
  c7_exhaustion_message detectProblematicContent (fun _ _ => GenOutcome.err "upstream refused")
    (.ok { original := "5 year old kid", transformed := "5 year old kid",
           method := "original", issues := [] }) "5 year old kid"
    (by decide) (by decide) (fun p m => rfl)

end GeminiSpec
